import Mathlib

/-
  Verification development for the voiseClone capture-visualize-orchestrate
  pipeline.  The definitions below are a shallow embedding of the program:

  * the playback arbiter (useAudioPlayer: playChatResponse / stopPlaying),
  * the upload/status orchestrator (useUploadAudio.uploadAudio,
    useAudioStatus.pollAudioStatus and its inner checkStatus loop),
  * the response loader (useChatResponses.loadChatResponses),
  * the recording session controller of VoiceRecorder.tsx
    (startRecording timer tick / stopRecording / stopAnimation),
  * the real-time waveform renderer (drawRealTimeWave).

  React state setters are modelled as functional updates of an explicit
  state record; asynchronous callbacks and timers are modelled by recording
  timed events in an explicit event trace; network outcomes are passed in
  as explicit parameters (Except for fallible requests).
-/

/-! ## Playback arbiter (useAudioPlayer) -/

/-- State kept by the useAudioPlayer hook: the id of the clip whose playback
has started (currentlyPlaying), the audio element currently held
(currentAudio, identified here by the clip id it was created for), and the
last reported player error. -/
structure PlayerState where
  currentlyPlaying : Option Nat
  currentAudio : Option Nat
  playerError : Option String
deriving DecidableEq

/-- Audible side effects of the arbiter: pausing/resetting the audio element
of a clip, and a clip actually starting to play (the onplay event). -/
inductive PlayEvent where
  | clipStopped (id : Nat)
  | clipStarted (id : Nat)
deriving DecidableEq

/-- stopPlaying of useAudioPlayer: if an audio element is held, pause it and
reset its position (observable as a clipStopped event) and drop it; in all
cases clear currentlyPlaying. -/
def stopPlaying (s : PlayerState) : PlayerState × List PlayEvent :=
  match s.currentAudio with
  | some a =>
      ({ s with currentlyPlaying := none, currentAudio := none }, [PlayEvent.clipStopped a])
  | none => ({ s with currentlyPlaying := none }, [])

/-- playChatResponse of useAudioPlayer.  The three Bool parameters resolve
the asynchronous outcomes of the source: whether the direct audio.play()
call succeeds, whether the fallback fetch of the audio succeeds, and whether
the fallback play() succeeds.  If the requested clip is already the one
playing, the call only stops it (toggle).  Otherwise any held audio element
is stopped first, then a fresh element for the clip is created and played,
falling back to a fetched blob on direct-play failure. -/
def playChatResponse (directOk fetchOk fallbackOk : Bool) (responseId : Nat)
    (s : PlayerState) : PlayerState × List PlayEvent :=
  if s.currentlyPlaying = some responseId then
    stopPlaying s
  else
    let p := if s.currentAudio.isSome then stopPlaying s else (s, [])
    let s2 := { p.1 with currentAudio := some responseId }
    if directOk then
      ({ s2 with currentlyPlaying := some responseId },
        p.2 ++ [PlayEvent.clipStarted responseId])
    else
      let s3 := { s2 with currentlyPlaying := none, currentAudio := none }
      if fetchOk then
        let s4 := { s3 with currentAudio := some responseId }
        if fallbackOk then
          ({ s4 with currentlyPlaying := some responseId },
            p.2 ++ [PlayEvent.clipStarted responseId])
        else
          ({ s4 with
              currentlyPlaying := none
              currentAudio := none
              playerError := some "Failed to play chat response" }, p.2)
      else
        ({ s3 with playerError := some "Failed to load chat response audio" }, p.2)

/-- Operations that can reach a player state: a playChatResponse call (with
its resolved asynchronous outcomes), an explicit stopPlaying call, and the
onended event of the held audio element. -/
inductive PlayerOp where
  | play (directOk fetchOk fallbackOk : Bool) (id : Nat)
  | stop
  | ended

/-- One step of the player: apply an operation to the state. -/
def stepPlayer (s : PlayerState) (op : PlayerOp) : PlayerState :=
  match op with
  | PlayerOp.play d f fb id => (playChatResponse d f fb id s).1
  | PlayerOp.stop => (stopPlaying s).1
  | PlayerOp.ended => { s with currentlyPlaying := none, currentAudio := none }

/-- Initial state of the useAudioPlayer hook: nothing playing, no element. -/
def initPlayer : PlayerState := ⟨none, none, none⟩

/-- The state reached by a sequence of player operations from the initial
state. -/
def runPlayer (ops : List PlayerOp) : PlayerState := ops.foldl stepPlayer initPlayer

/-- The clips active in a state, per the data model of the spec: the
currentlyPlaying identifier (as a list, so that its size can be counted). -/
def activeClips (s : PlayerState) : List Nat := s.currentlyPlaying.toList

/-! ## Upload/status orchestrator (useAudioStatus.pollAudioStatus) -/

/-- A status response from GET /audio/status, restricted to the two fields
the polling loop reads: the status string and the voice identity. -/
structure StatusData where
  status : String
  voiceId : String
deriving DecidableEq

/-- Timed observable events of a polling run: a status request issued at
time t (milliseconds since the run started), and the onComplete callback
(which the caller uses to invoke the response loader) firing at time t with
the resolved voice identity. -/
inductive PollEvent where
  | statusRequest (t : Nat)
  | loaderInvoked (t : Nat) (voiceId : String)
deriving DecidableEq

/-- Result of a polling run: its event trace and the final hook state
(error, isProcessing, clonedAudioData). -/
structure PollRun where
  events : List PollEvent
  pollError : Option String
  isProcessing : Bool
  clonedAudioData : Option StatusData
deriving DecidableEq

/-- The inner checkStatus loop of pollAudioStatus.  The list argument holds
the successive server responses the run observes, the Nat argument the time
at which the next status request is issued.  A completed response stores the
data, clears isProcessing and, when a callback was supplied (hasCallback),
schedules it 25000 ms later; any other non-failed status schedules the next
check 2000 ms later through setTimeout, which discards the promise of that
next invocation.  A failed response throws, and the enclosing try/catch of
pollAudioStatus awaits only the FIRST invocation (awaited = true): a throw
there is caught, recording the error and clearing isProcessing, while a
throw inside any setTimeout-scheduled invocation (awaited = false) is an
unhandled promise rejection — no state is updated, so the error stays unset
and isProcessing stays true.  An exhausted response list models a run still
in flight. -/
def checkStatus (hasCallback awaited : Bool) : Nat → List StatusData → PollRun
  | _, [] => { events := [], pollError := none, isProcessing := true, clonedAudioData := none }
  | t, d :: rest =>
    if d.status = "completed" then
      { events := PollEvent.statusRequest t ::
          (if hasCallback then [PollEvent.loaderInvoked (t + 25000) d.voiceId] else [])
        pollError := none
        isProcessing := false
        clonedAudioData := some d }
    else if d.status = "failed" then
      if awaited then
        { events := [PollEvent.statusRequest t]
          pollError := some "Voice cloning failed"
          isProcessing := false
          clonedAudioData := none }
      else
        { events := [PollEvent.statusRequest t]
          pollError := none
          isProcessing := true
          clonedAudioData := none }
    else
      let r := checkStatus hasCallback false (t + 2000) rest
      { r with events := PollEvent.statusRequest t :: r.events }

/-- pollAudioStatus: sets isProcessing and awaits the first checkStatus
invocation at time 0 inside its try/catch. -/
def pollAudioStatus (hasCallback : Bool) (responses : List StatusData) : PollRun :=
  checkStatus hasCallback true 0 responses

/-- The loader-invocation events of a trace. -/
def loaderEvents (evs : List PollEvent) : List PollEvent :=
  evs.filter fun e => match e with
    | PollEvent.loaderInvoked _ _ => true
    | _ => false

/-- The status-request events of a trace. -/
def statusRequests (evs : List PollEvent) : List PollEvent :=
  evs.filter fun e => match e with
    | PollEvent.statusRequest _ => true
    | _ => false

/-- A status response that keeps the polling loop going: neither completed
nor failed. -/
def nonTerminal (d : StatusData) : Prop :=
  d.status ≠ "completed" ∧ d.status ≠ "failed"

instance (d : StatusData) : Decidable (nonTerminal d) := by
  unfold nonTerminal; infer_instance

/-! ## Response loader (useChatResponses.loadChatResponses) -/

/-- One generated response clip as returned by GET /audio/chat-responses. -/
structure ChatResponse where
  id : Nat
  question : String
  audioUrl : String
deriving DecidableEq

/-- The JSON payload of a chat-responses request: either an array of clips
or some other (malformed, non-array) JSON value. -/
inductive Payload where
  | arr (rs : List ChatResponse)
  | malformed
deriving DecidableEq

/-- State kept by the useChatResponses hook. -/
structure ChatState where
  isLoadingResponses : Bool
  chatResponses : List ChatResponse
  chatError : Option String
deriving DecidableEq

/-- loadChatResponses: issue the request (its outcome is passed in as an
Except), and on success store the payload when it is a non-empty array,
otherwise store the empty list; a request error is recorded in chatError
and, as in the source, leaves chatResponses untouched.  The finally block
clears isLoadingResponses on every path. -/
def loadChatResponses (outcome : Except String Payload) (s : ChatState) : ChatState :=
  match outcome with
  | Except.ok (Payload.arr rs) =>
      { s with
          chatError := none
          chatResponses := if rs.length > 0 then rs else []
          isLoadingResponses := false }
  | Except.ok Payload.malformed =>
      { s with
          chatError := none
          chatResponses := []
          isLoadingResponses := false }
  | Except.error msg =>
      { s with chatError := some msg, isLoadingResponses := false }

/-! ## Upload flow (useUploadAudio.uploadAudio and handleUploadAudio) -/

/-- Combined state of the VoiceRecorder upload flow: the recorded audio URL,
the flags of the useUploadAudio / useAudioStatus / useChatResponses hooks
that gate the upload button, the upload error, whether the chat section is
shown, and the job id for which status polling has been started (none when
no polling was ever started). -/
structure UploadFlowState where
  audioURL : Option String
  isUploading : Bool
  uploadError : Option String
  isProcessing : Bool
  isLoadingResponses : Bool
  showChatSection : Bool
  pollingStartedFor : Option Nat
deriving DecidableEq

/-- uploadAudio of useUploadAudio: sets isUploading, clears the error, sends
the multipart request (its outcome, the assigned job id or an error, is
passed in as an Except), and returns the id on success or null on any
failure; the finally block clears isUploading on both paths. -/
def uploadAudio (outcome : Except String Nat) (s : UploadFlowState) :
    UploadFlowState × Option Nat :=
  match outcome with
  | Except.ok jobId =>
      ({ s with isUploading := false, uploadError := none }, some jobId)
  | Except.error msg =>
      ({ s with isUploading := false, uploadError := some msg }, none)

/-- The guard of handleUploadAudio: an upload attempt proceeds only when a
recording exists and no upload, processing, or response loading is in
flight. -/
def canUpload (s : UploadFlowState) : Prop :=
  s.audioURL ≠ none ∧ s.isUploading = false ∧ s.isProcessing = false ∧
    s.isLoadingResponses = false

instance (s : UploadFlowState) : Decidable (canUpload s) := by
  unfold canUpload; infer_instance

/-- handleUploadAudio of VoiceRecorder: returns early unless the guard
holds; otherwise shows the chat section, sets the loading state, reads the
recorded blob back from its object URL (blobFetchOk), uploads it, and on a
truthy returned id starts status polling, while a null (or zero, which is
falsy in the source) id switches the loading state back off. -/
def handleUploadAudio (blobFetchOk : Bool) (outcome : Except String Nat)
    (s : UploadFlowState) : UploadFlowState :=
  if s.audioURL = none ∨ s.isUploading ∨ s.isProcessing ∨ s.isLoadingResponses then
    s
  else
    let s1 := { s with showChatSection := true, isLoadingResponses := true }
    if blobFetchOk then
      let p := uploadAudio outcome s1
      match p.2 with
      | some jobId =>
          if jobId ≠ 0 then { p.1 with pollingStartedFor := some jobId }
          else { p.1 with isLoadingResponses := false }
      | none => { p.1 with isLoadingResponses := false }
    else
      { s1 with isLoadingResponses := false }

/-! ## Recording session controller (VoiceRecorder startRecording timer,
stopRecording, stopAnimation) -/

/-- State of a VoiceRecorder recording session: the component flags and the
device resources held in refs. -/
structure RecState where
  isRecording : Bool
  recordingTime : Nat
  timerActive : Bool
  isAnimating : Bool
  animationId : Option Nat
  mediaRecorder : Option Unit
  stream : Option Unit
  audioContext : Option Unit
deriving DecidableEq

/-- Externally visible effects of stopping: cancelling the animation frame,
stopping the MediaRecorder (which finalizes the clip), clearing the
interval timer, stopping the stream tracks, and closing the audio
context. -/
inductive RecEvent where
  | cancelAnim
  | recorderStop
  | clearTimer
  | trackStop
  | contextClose
deriving DecidableEq

/-- stopAnimation: clear the isAnimating flag and, when an animation frame
is pending, cancel it. -/
def stopAnimation (s : RecState) : RecState × List RecEvent :=
  match s.animationId with
  | some _ => ({ s with isAnimating := false, animationId := none }, [RecEvent.cancelAnim])
  | none => ({ s with isAnimating := false }, [])

/-- stopRecording of VoiceRecorder: stop the animation, stop the
MediaRecorder when one is held and the component is recording, clear the
recording flag, clear the timer when active, stop and drop the stream, and
close and drop the audio context. -/
def stopRecording (s : RecState) : RecState × List RecEvent :=
  let a := stopAnimation s
  let recEvs := if a.1.mediaRecorder.isSome ∧ a.1.isRecording then [RecEvent.recorderStop] else []
  let s1 := { a.1 with isRecording := false }
  let p2 := if s1.timerActive then
      ({ s1 with timerActive := false }, [RecEvent.clearTimer]) else (s1, [])
  let p3 := if p2.1.stream.isSome then
      ({ p2.1 with stream := none }, [RecEvent.trackStop]) else (p2.1, [])
  let p4 := if p3.1.audioContext.isSome then
      ({ p3.1 with audioContext := none }, [RecEvent.contextClose]) else (p3.1, [])
  (p4.1, a.2 ++ recEvs ++ p2.2 ++ p3.2 ++ p4.2)

/-- The state right after a successful startRecording: resources acquired,
recorder started, visualization running, time reset, 1-second timer set. -/
def startedState : RecState :=
  { isRecording := true
    recordingTime := 0
    timerActive := true
    isAnimating := true
    animationId := some 0
    mediaRecorder := some ()
    stream := some ()
    audioContext := some () }

/-- One tick of the recording timer set by startRecording: when the timer
has been cleared nothing fires; otherwise the functional update runs —
at 60 or more it calls stopRecording and pins the time at 60, below 60 it
increments the time.  The returned Bool reports whether this tick invoked
the automatic stopRecording. -/
def timerTick (s : RecState) : RecState × Bool :=
  if s.timerActive then
    if s.recordingTime ≥ 60 then
      ({ (stopRecording s).1 with recordingTime := 60 }, true)
    else
      ({ s with recordingTime := s.recordingTime + 1 }, false)
  else (s, false)

/-- n ticks of the recording timer from the started state, together with
the number of ticks that invoked the automatic stopRecording. -/
def runTimer : Nat → RecState × Nat
  | 0 => (startedState, 0)
  | n + 1 =>
    let p := runTimer n
    let q := timerTick p.1
    (q.1, p.2 + (if q.2 then 1 else 0))

/-! ## Waveform renderer (drawRealTimeWave) -/

/-- Bar width used by the renderer. -/
def barWidth : Nat := 4

/-- Gap between bars used by the renderer. -/
def barGap : Nat := 1

/-- totalBars of drawRealTimeWave: how many bars fit across a surface of
the given width. -/
def totalBars (width : Nat) : Nat := width / (barWidth + barGap)

/-- The step of drawRealTimeWave: the distance between consecutive sample
reads for a buffer of the given length (Nat division, as Math.floor in the
source). -/
def stepOf (bufferLength width : Nat) : Nat := bufferLength / totalBars width

/-- The buffer index read for bar i. -/
def dataIndexOf (bufferLength width i : Nat) : Nat := i * stepOf bufferLength width

/-- The centered normalized amplitude of one unsigned byte sample. -/
def normalizedValue (v : Nat) : ℚ := |(v : ℚ) - 128| / 128

/-- The raw height of one bar, before smoothing: the amplified normalized
value scaled by 0.8 of the surface height, floored at the base height 4.
The sub-linear gain curve Math.pow(x, 0.7) of the source is a real-valued
function whose exact values none of the verified properties depend on; it
is taken here as the parameter rpow, and the multiplication by 2.5 follows
it as in the source. -/
def rawBarHeight (rpow : ℚ → ℚ) (height : Nat) (v : Nat) : ℚ :=
  max 4 (rpow (normalizedValue v) * (5 / 2) * height * (4 / 5))

/-- The first loop of drawRealTimeWave: the raw bar heights, one per bar,
each read from the frame at the strided index of that bar. -/
def barHeights (rpow : ℚ → ℚ) (frame : List Nat) (width height : Nat) : List ℚ :=
  (List.range (totalBars width)).map fun i =>
    rawBarHeight rpow height (frame.getD (dataIndexOf frame.length width i) 0)

/-- The body of the smoothing loop for index i: average the height at i
with its left neighbor (when i is not the first index) and its right
neighbor (when i is not the last). -/
def smoothAt (hs : List ℚ) (i : Nat) : ℚ :=
  let sum0 := hs.getD i 0
  let p1 := if 0 < i then (sum0 + hs.getD (i - 1) 0, (2 : ℚ)) else (sum0, 1)
  let p2 := if i < hs.length - 1 then (p1.1 + hs.getD (i + 1) 0, p1.2 + 1) else p1
  p2.1 / p2.2

/-- The second loop of drawRealTimeWave: the smoothed heights. -/
def smoothedHeights (hs : List ℚ) : List ℚ :=
  (List.range hs.length).map (smoothAt hs)

/-- One bar as drawn on the canvas. -/
structure Bar where
  x : ℚ
  y : ℚ
  w : ℚ
  h : ℚ
deriving DecidableEq

/-- The third loop of drawRealTimeWave: the bars actually drawn, one per
index below totalBars, vertically centered with the smoothed height. -/
def drawnBars (rpow : ℚ → ℚ) (frame : List Nat) (width height : Nat) : List Bar :=
  let hs := smoothedHeights (barHeights rpow frame width height)
  (List.range (totalBars width)).map fun i =>
    let bh := hs.getD i 0
    { x := (i : ℚ) * ((barWidth : ℚ) + (barGap : ℚ))
      y := ((height : ℚ) - bh) / 2
      w := (barWidth : ℚ)
      h := bh }

/-! ## Theorems about the waveform renderer -/

/-- C7: for every analysis frame and every rendering surface of width W, the
renderer draws exactly floor(W / (barWidth + barGap)) bars, independent of
the frame content (and of the gain curve and surface height). -/
theorem rendered_bar_count (rpow : ℚ → ℚ) (frame : List Nat) (width height : Nat) :
    (drawnBars rpow frame width height).length = width / (barWidth + barGap) := by
  simp [drawnBars, totalBars]

/-- Every strided read of the renderer stays inside a non-empty buffer:
i * floor(L / B) < L whenever i < B. -/
theorem stride_read_lt (L B i : Nat) (hL : 1 ≤ L) (hi : i < B) : i * (L / B) < L := by
  rcases Nat.eq_zero_or_pos (L / B) with h | h
  · simpa [h] using hL
  · calc i * (L / B) < B * (L / B) := by
          exact Nat.mul_lt_mul_of_lt_of_le hi (le_refl _) h
       _ ≤ L := by
          rw [Nat.mul_comm]
          exact Nat.div_mul_le_self L B
/-- C10: for every analysis buffer of length L ≥ 1 and every bar index below
the bar count derived from the canvas width, the index the renderer reads is
strictly below L, so the frame is never read out of bounds. -/
theorem renderer_read_in_bounds (L width i : Nat) (hL : 1 ≤ L)
    (hi : i < totalBars width) : dataIndexOf L width i < L := by
  unfold dataIndexOf stepOf
  exact stride_read_lt L (totalBars width) i hL hi

/-- Witness for C10 at the concrete sizes of the source: buffer length 1024
(frequencyBinCount of an fftSize-2048 analyser) and an 800-pixel canvas. -/
theorem renderer_read_in_bounds_witness :
    1 ≤ 1024 ∧ 159 < totalBars 800 ∧ dataIndexOf 1024 800 159 < 1024 :=
  ⟨by decide, by decide, renderer_read_in_bounds 1024 800 159 (by decide) (by decide)⟩

/-- On a list of equal heights, the smoothing body returns that height at
every index of the list. -/
theorem smoothAt_replicate (n i : Nat) (c : ℚ) (hi : i < n) :
    smoothAt (List.replicate n c) i = c := by
  have hget : ∀ j, j < n → (List.replicate n c).getD j 0 = c := by
    intro j hj
    rw [List.getD_eq_getElem _ _ (by simpa using hj)]
    simp
  unfold smoothAt
  simp only [List.length_replicate, hget i hi]
  by_cases h0 : 0 < i
  · by_cases h1 : i < n - 1
    · simp only [if_pos h0, if_pos h1, hget (i - 1) (by omega), hget (i + 1) (by omega)]
      ring
    · simp only [if_pos h0, if_neg h1, hget (i - 1) (by omega)]
      ring
  · by_cases h1 : i < n - 1
    · simp only [if_neg h0, if_pos h1, hget (i + 1) (by omega)]
      ring
    · simp only [if_neg h0, if_neg h1]
      ring

/-- Smoothing a constant list of heights is the identity. -/
theorem smoothedHeights_replicate (n : Nat) (c : ℚ) :
    smoothedHeights (List.replicate n c) = List.replicate n c := by
  unfold smoothedHeights
  simp only [List.length_replicate]
  apply List.ext_getElem
  · simp
  · intro i h1 h2
    simp only [List.getElem_map, List.getElem_range, List.getElem_replicate]
    exact smoothAt_replicate n i c (by simpa using h2)

/-- On a constant frame of length L ≥ 1, every raw bar height is the same
value, so the first loop produces a constant list. -/
theorem barHeights_const (rpow : ℚ → ℚ) (v L width height : Nat) (hL : 1 ≤ L) :
    barHeights rpow (List.replicate L v) width height =
      List.replicate (totalBars width) (rawBarHeight rpow height v) := by
  unfold barHeights
  apply List.ext_getElem
  · simp
  · intro i h1 h2
    simp only [List.getElem_map, List.getElem_range, List.getElem_replicate]
    have hi : i < totalBars width := by simpa using h2
    have hidx : dataIndexOf (List.replicate L v).length width i < L := by
      rw [List.length_replicate]
      unfold dataIndexOf stepOf
      exact stride_read_lt L (totalBars width) i hL hi
    rw [List.getD_eq_getElem _ _ (by simpa using hidx)]
    rw [List.getElem_replicate]

/-- C8: on a constant-amplitude frame (all samples equal, hence all raw bar
heights equal) the neighbor-averaging smoothing step is the identity: the
smoothed heights coincide with the raw heights. -/
theorem smoothing_identity_on_const (rpow : ℚ → ℚ) (v L width height : Nat)
    (hL : 1 ≤ L) :
    smoothedHeights (barHeights rpow (List.replicate L v) width height) =
      barHeights rpow (List.replicate L v) width height := by
  rw [barHeights_const rpow v L width height hL, smoothedHeights_replicate]

/-- Witness for C8 at a concrete constant frame: 8 samples of value 140 on
a 10 by 120 surface, with the gain curve instantiated to the identity. -/
theorem smoothing_identity_witness :
    1 ≤ 8 ∧
    smoothedHeights (barHeights (fun x => x) (List.replicate 8 140) 10 120) =
      barHeights (fun x => x) (List.replicate 8 140) 10 120 :=
  ⟨by decide, smoothing_identity_on_const (fun x => x) 140 8 10 120 (by decide)⟩

/-! ## Theorems about the recording session controller -/

/-- C9: stopRecording is idempotent — once a first stopRecording has taken
effect, a further stopRecording leaves the session state unchanged and
performs no effect at all: it does not stop the recorder again, does not
touch the stream, timer, animation, or audio context. -/
theorem stop_recording_idempotent (s : RecState) :
    stopRecording (stopRecording s).1 = ((stopRecording s).1, []) := by
  rcases s with ⟨ir, rt, ta, ia, aid, mr, st, ac⟩
  cases aid <;> cases mr <;> cases st <;> cases ac <;> cases ir <;> cases ta <;>
    simp [stopRecording, stopAnimation]

/-- The session state after the automatic stop: time pinned at 60, flags
cleared, timer cleared, stream and audio context released; the MediaRecorder
reference itself is kept (the source nulls it only in the hook variant). -/
def stoppedState : RecState :=
  { isRecording := false
    recordingTime := 60
    timerActive := false
    isAnimating := false
    animationId := none
    mediaRecorder := some ()
    stream := none
    audioContext := none }

/-- Closed form of the timer run: for the first 60 ticks the elapsed time
equals the tick count and no automatic stop has fired; from tick 61 on the
session sits in the stopped state and exactly one automatic stop has
fired. -/
theorem runTimer_eq (n : Nat) :
    runTimer n = if n ≤ 60 then ({ startedState with recordingTime := n }, 0)
      else (stoppedState, 1) := by
  induction n with
  | zero => simp [runTimer, startedState]
  | succ n ih =>
    rw [runTimer, ih]
    by_cases h : n + 1 ≤ 60
    · have h' : n ≤ 60 := by omega
      have h60 : ¬ n ≥ 60 := by omega
      simp [h, h', timerTick, startedState, h60]
    · by_cases h' : n ≤ 60
      · have hn : n = 60 := by omega
        subst hn
        simp [h, timerTick, startedState, stoppedState, stopRecording, stopAnimation]
      · simp [h, h', timerTick, stoppedState]

/-- C3: the elapsed time reported by the recording timer is monotonically
non-decreasing and never exceeds 60, at most one automatic stopRecording
ever fires, and any run long enough to cross the 60-second ceiling fires it
exactly once. -/
theorem recording_timer_spec (n : Nat) :
    (runTimer n).1.recordingTime ≤ (runTimer (n + 1)).1.recordingTime ∧
    (runTimer n).1.recordingTime ≤ 60 ∧
    (runTimer n).2 ≤ 1 ∧
    (61 ≤ n → (runTimer n).2 = 1) := by
  have h1 := runTimer_eq n
  have h2 := runTimer_eq (n + 1)
  by_cases h : n ≤ 60 <;> by_cases h' : n + 1 ≤ 60 <;>
    simp [h1, h2, h, h', startedState, stoppedState] <;> omega

/-- Witness for C3 at the first tick past the ceiling. -/
theorem recording_timer_witness :
    (runTimer 61).1.recordingTime ≤ 60 ∧ (runTimer 61).2 = 1 :=
  ⟨(recording_timer_spec 61).2.1, (recording_timer_spec 61).2.2.2 (by decide)⟩

/-! ## Theorems about the playback arbiter -/

/-- C1: when clip A is active (currentlyPlaying and the held audio element
both refer to A), calling playChatResponse on A stops A and starts nothing
(toggle); calling it on a different clip B first stops A — the stop event
precedes everything else — and when playback succeeds (directly or through
the fallback) the trace is exactly stop A then start B, leaving B active;
and in every state reachable by any sequence of player operations at most
one clip is active. -/
theorem playback_arbiter_spec (s : PlayerState) (A B : Nat) (d f fb : Bool)
    (hA : s.currentlyPlaying = some A) (haud : s.currentAudio = some A) :
    ((playChatResponse d f fb A s).1.currentlyPlaying = none ∧
      (playChatResponse d f fb A s).2 = [PlayEvent.clipStopped A]) ∧
    (A ≠ B →
      (playChatResponse d f fb B s).2.head? = some (PlayEvent.clipStopped A) ∧
      (d = true ∨ (f = true ∧ fb = true) →
        (playChatResponse d f fb B s).2 =
          [PlayEvent.clipStopped A, PlayEvent.clipStarted B] ∧
        (playChatResponse d f fb B s).1.currentlyPlaying = some B)) ∧
    (∀ ops : List PlayerOp, (activeClips (runPlayer ops)).length ≤ 1) := by
  refine ⟨?_, ?_, ?_⟩
  · simp [playChatResponse, stopPlaying, hA, haud]
  · intro hAB
    have hne : ¬ s.currentlyPlaying = some B := by simp [hA, hAB]
    constructor
    · cases d <;> cases f <;> cases fb <;>
        simp [playChatResponse, stopPlaying, hne, haud]
    · rintro (hd | ⟨hf, hfb⟩)
      · subst hd
        simp [playChatResponse, stopPlaying, hne, haud]
      · subst hf; subst hfb
        cases d <;> simp [playChatResponse, stopPlaying, hne, haud]
  · intro ops
    unfold activeClips
    cases h : (runPlayer ops).currentlyPlaying <;> simp [h]

/-- Witness for C1: clip 1 active, toggling 1 stops it, playing 2 stops 1
before starting 2, and a concrete run keeps at most one clip active. -/
theorem playback_arbiter_witness :
    (playChatResponse true true true 1 ⟨some 1, some 1, none⟩).1.currentlyPlaying = none ∧
    (playChatResponse true true true 2 ⟨some 1, some 1, none⟩).2 =
      [PlayEvent.clipStopped 1, PlayEvent.clipStarted 2] ∧
    (activeClips (runPlayer
      [PlayerOp.play true true true 1, PlayerOp.play true true true 2])).length ≤ 1 :=
  ⟨(playback_arbiter_spec ⟨some 1, some 1, none⟩ 1 2 true true true rfl rfl).1.1,
   (((playback_arbiter_spec ⟨some 1, some 1, none⟩ 1 2 true true true rfl rfl).2.1
      (by decide)).2 (Or.inl rfl)).1,
   (playback_arbiter_spec ⟨some 1, some 1, none⟩ 1 2 true true true rfl rfl).2.2 _⟩

/-! ## Theorems about the upload/status orchestrator -/

/-- Field-level description of a polling run that observes completed after
a prefix of non-terminal statuses, for any start time and whether or not
the current invocation is the awaited first one (the completed branch never
throws, so it behaves the same either way). -/
theorem checkStatus_completed (pre : List StatusData) (d : StatusData)
    (rest : List StatusData) (hpre : ∀ x ∈ pre, nonTerminal x)
    (hd : d.status = "completed") (aw : Bool) (t : Nat) :
    (checkStatus true aw t (pre ++ d :: rest)).clonedAudioData = some d ∧
    loaderEvents (checkStatus true aw t (pre ++ d :: rest)).events =
      [PollEvent.loaderInvoked (t + 2000 * pre.length + 25000) d.voiceId] ∧
    (checkStatus true aw t (pre ++ d :: rest)).pollError = none ∧
    (checkStatus true aw t (pre ++ d :: rest)).isProcessing = false := by
  induction pre generalizing aw t with
  | nil =>
    simp [checkStatus, hd, loaderEvents]
  | cons p pre ih =>
    have hp : nonTerminal p := hpre p (by simp)
    have ih' := ih (fun x hx => hpre x (by simp [hx])) false (t + 2000)
    simp only [List.cons_append, checkStatus, hp.1, hp.2, if_neg, if_false,
      ite_false, loaderEvents, List.filter_cons] at *
    refine ⟨ih'.1, ?_, ih'.2.2⟩
    have harith : t + 2000 + 2000 * pre.length + 25000 =
        t + 2000 * (pre.length + 1) + 25000 := by ring
    simpa [loaderEvents, List.length_cons, harith] using ih'.2.1

/-- C2: every polling run that observes completed (after any prefix of
non-terminal statuses) resolves with the completed data carrying the voice
identity, and fires the onComplete callback — the response-loader
invocation — exactly once, 25000 ms after the completing status request
(which itself happens 2000 ms per preceding poll into the run), with no
error recorded and processing cleared. -/
theorem poll_completed_spec (pre : List StatusData) (d : StatusData)
    (rest : List StatusData) (hpre : ∀ x ∈ pre, nonTerminal x)
    (hd : d.status = "completed") :
    (pollAudioStatus true (pre ++ d :: rest)).clonedAudioData = some d ∧
    loaderEvents (pollAudioStatus true (pre ++ d :: rest)).events =
      [PollEvent.loaderInvoked (2000 * pre.length + 25000) d.voiceId] ∧
    (pollAudioStatus true (pre ++ d :: rest)).pollError = none ∧
    (pollAudioStatus true (pre ++ d :: rest)).isProcessing = false := by
  have h := checkStatus_completed pre d rest hpre hd true 0
  simpa [pollAudioStatus] using h

/-- Witness for C2: a run observing pending, processing, completed with
voice identity v1 invokes the loader exactly once at 4000 + 25000 ms. -/
theorem poll_completed_witness :
    (pollAudioStatus true
      [⟨"pending", ""⟩, ⟨"processing", ""⟩, ⟨"completed", "v1"⟩]).clonedAudioData =
        some ⟨"completed", "v1"⟩ ∧
    loaderEvents (pollAudioStatus true
      [⟨"pending", ""⟩, ⟨"processing", ""⟩, ⟨"completed", "v1"⟩]).events =
        [PollEvent.loaderInvoked 29000 "v1"] :=
  ⟨(poll_completed_spec [⟨"pending", ""⟩, ⟨"processing", ""⟩] ⟨"completed", "v1"⟩ []
      (by decide) (by decide)).1,
   (poll_completed_spec [⟨"pending", ""⟩, ⟨"processing", ""⟩] ⟨"completed", "v1"⟩ []
      (by decide) (by decide)).2.1⟩

/-- C4: evaluation of the program at the failing input where the failed
status arrives on the second poll (with a further response pending).  The
claim is right about stopping — polling stops, only the two observed
requests are ever issued, and the loader never fires — but ProcessingFailed
is never reported: the throw happens inside a setTimeout-scheduled
invocation whose promise nothing awaits, so the catch of pollAudioStatus
never runs, the error stays unset and isProcessing stays true.  The last
conjunct shows the intended report does happen when the very first, awaited
status check returns failed, confirming the catch was meant to surface this
error. -/
theorem poll_failed_unreported :
    (pollAudioStatus true
      [⟨"processing", ""⟩, ⟨"failed", ""⟩, ⟨"completed", "v1"⟩]).pollError = none ∧
    (pollAudioStatus true
      [⟨"processing", ""⟩, ⟨"failed", ""⟩, ⟨"completed", "v1"⟩]).isProcessing = true ∧
    loaderEvents (pollAudioStatus true
      [⟨"processing", ""⟩, ⟨"failed", ""⟩, ⟨"completed", "v1"⟩]).events = [] ∧
    (statusRequests (pollAudioStatus true
      [⟨"processing", ""⟩, ⟨"failed", ""⟩, ⟨"completed", "v1"⟩]).events).length = 2 ∧
    (pollAudioStatus true [⟨"failed", ""⟩]).pollError =
      some "Voice cloning failed" := by
  decide

/-! ## Theorems about the response loader -/

/-- A loader state holding one previously fetched response, used to exhibit
that a failing call keeps the old collection. -/
def samplePrevChat : ChatState :=
  { isLoadingResponses := false
    chatResponses := [⟨1, "q", "u"⟩]
    chatError := none }

/-- Counterexample to C5 as stated: a load call that fails does NOT replace
the previously held collection — the old responses survive the call — so
the outcome of a call is not a function of the call alone but also of the
previously held collection. -/
theorem load_replace_counterexample :
    (loadChatResponses (Except.error "Network Error") samplePrevChat).chatResponses =
      samplePrevChat.chatResponses ∧
    samplePrevChat.chatResponses ≠ [] ∧
    ¬ (∀ (o : Except String Payload) (s1 s2 : ChatState),
        (loadChatResponses o s1).chatResponses = (loadChatResponses o s2).chatResponses) := by
  refine ⟨by decide, by decide, ?_⟩
  intro h
  have := h (Except.error "Network Error") samplePrevChat
    { isLoadingResponses := false, chatResponses := [], chatError := none }
  simp [loadChatResponses, samplePrevChat] at this

/-- C5 as amended: an empty or malformed (non-array) payload yields zero
results with no error; a request error is recorded (LoadFailed) and is
distinguishable from a zero-result load, but leaves the previously held
collection in place; and every call that completes without an error fully
replaces the previously held collection with the payload, independently of
the prior state. -/
theorem load_chat_responses_spec (s : ChatState) (rs : List ChatResponse)
    (msg : String) :
    (loadChatResponses (Except.ok (Payload.arr rs)) s).chatResponses = rs ∧
    (loadChatResponses (Except.ok (Payload.arr rs)) s).chatError = none ∧
    (loadChatResponses (Except.ok Payload.malformed) s).chatResponses = [] ∧
    (loadChatResponses (Except.ok Payload.malformed) s).chatError = none ∧
    (loadChatResponses (Except.error msg) s).chatError = some msg ∧
    (loadChatResponses (Except.error msg) s).chatResponses = s.chatResponses ∧
    (loadChatResponses (Except.error msg) s).chatError ≠
      (loadChatResponses (Except.ok (Payload.arr [])) s).chatError ∧
    (loadChatResponses (Except.ok (Payload.arr rs)) s).isLoadingResponses = false := by
  refine ⟨?_, ?_, ?_, ?_, ?_, ?_, ?_, ?_⟩ <;>
    cases rs <;> simp [loadChatResponses]

/-! ## Theorems about the upload flow -/

/-- C6: when an upload is attempted from a state that admits one and the
request fails (non-success HTTP status or network failure both reject the
axios call), the failure is recorded as the upload error, the hook returns
no job identifier, no status polling is started, the uploading flag is
cleared, and a subsequent upload attempt with the same clip passes the
guard again. -/
theorem upload_failure_spec (s : UploadFlowState) (msg : String)
    (hurl : s.audioURL ≠ none) (hu : s.isUploading = false)
    (hp : s.isProcessing = false) (hl : s.isLoadingResponses = false) :
    (handleUploadAudio true (Except.error msg) s).uploadError = some msg ∧
    (uploadAudio (Except.error msg) s).2 = none ∧
    (handleUploadAudio true (Except.error msg) s).pollingStartedFor =
      s.pollingStartedFor ∧
    (handleUploadAudio true (Except.error msg) s).isUploading = false ∧
    canUpload (handleUploadAudio true (Except.error msg) s) := by
  have hguard : ¬ (s.audioURL = none ∨ s.isUploading ∨ s.isProcessing ∨
      s.isLoadingResponses) := by
    simp [hurl, hu, hp, hl]
  refine ⟨?_, ?_, ?_, ?_, ?_⟩ <;>
    simp [handleUploadAudio, uploadAudio, canUpload, hguard, hurl, hu, hp, hl]

/-- Witness for C6 at a concrete retryable state and a failing request. -/
theorem upload_failure_witness :
    (handleUploadAudio true (Except.error "Upload failed")
      ⟨some "blob:recording", false, none, false, false, false, none⟩).uploadError =
        some "Upload failed" ∧
    canUpload (handleUploadAudio true (Except.error "Upload failed")
      ⟨some "blob:recording", false, none, false, false, false, none⟩) :=
  ⟨(upload_failure_spec ⟨some "blob:recording", false, none, false, false, false, none⟩
      "Upload failed" (by decide) rfl rfl rfl).1,
   (upload_failure_spec ⟨some "blob:recording", false, none, false, false, false, none⟩
      "Upload failed" (by decide) rfl rfl rfl).2.2.2.2⟩
